import Mathlib

/-!
Verification of the `CHECK_VAT_SERVICE` function of check_vat.js: a shallow
embedding of its input normalization, SOAP request building, transport
dispatch, XML response parsing and rate-limiting pause, together with
theorems settling the spec's claims about it.

The external world (HTTP fetch, XML text parsing) is modelled
environmentally: the single fetch the function performs is represented by a
`FetchOutcome` argument, and the single `XmlService.parse` call on the body
by a `ParseOutcome` argument (the parsed document tree, or a parse failure).
JavaScript values relevant to the input check are modelled by `JsValue`;
truthiness follows JavaScript. String uppercasing is modelled at the ASCII
level, which is where every claim lives.
-/

/-- A JavaScript value as far as the input check observes it:
`!vat_number || typeof vat_number !== 'string'`. -/
inductive JsValue where
  | undef
  | nullv
  | boolv (b : Bool)
  | numv (n : Int)
  | strv (s : String)
deriving DecidableEq, Repr

/-- JavaScript truthiness test `!v` on the modelled values. -/
def falsy : JsValue → Bool
  | .undef => true
  | .nullv => true
  | .boolv b => !b
  | .numv n => n == 0
  | .strv s => s == ""

/-- `typeof v === 'string'`. -/
def isString : JsValue → Bool
  | .strv _ => true
  | _ => false

/-- The string payload of a string value (defaults to "" elsewhere;
only used under an `isString` guard). -/
def stringOf : JsValue → String
  | .strv s => s
  | _ => ""

/-- Characters kept by the regex replace `[^A-Z0-9]` after uppercasing. -/
def isVatChar (c : Char) : Bool :=
  ('A' ≤ c && c ≤ 'Z') || ('0' ≤ c && c ≤ '9')

/-- `vat_number.toUpperCase().replace(/[^A-Z0-9]/g, '')`, modelled at the
ASCII level: uppercase every character, keep only `[A-Z0-9]`. -/
def normalizeVat (s : String) : String :=
  String.mk ((s.data.map Char.toUpper).filter isVatChar)

/-- `.toLowerCase()` on a tag name, modelled characterwise. -/
def lowerStr (s : String) : String :=
  String.mk (s.data.map Char.toLower)

/-- The literal text of the SOAP payload before the country code. -/
def payloadPre : String :=
  "<?xml version=\"1.0\" encoding=\"UTF-8\"?><SOAP-ENV:Envelope xmlns:SOAP-ENV=\"http://schemas.xmlsoap.org/soap/envelope/\" xmlns:ns1=\"urn:ec.europa.eu:taxud:vies:services:checkVat:types\"><SOAP-ENV:Body><ns1:checkVat><ns1:countryCode>"

/-- The literal text of the SOAP payload between country code and VAT number. -/
def payloadMid : String :=
  "</ns1:countryCode><ns1:vatNumber>"

/-- The literal text of the SOAP payload after the VAT number. -/
def payloadSuf : String :=
  "</ns1:vatNumber></ns1:checkVat></SOAP-ENV:Body></SOAP-ENV:Envelope>"

/-- The request builder: the source's `payload` string concatenation,
which embeds `countryCode` and `vatNumber` verbatim. -/
def buildPayload (countryCode vatNumber : String) : String :=
  payloadPre ++ countryCode ++ payloadMid ++ vatNumber ++ payloadSuf

/-- Replacement text of one character under XML escaping of text content. -/
def escapeChar (c : Char) : String :=
  if c = '&' then "&amp;"
  else if c = '<' then "&lt;"
  else if c = '>' then "&gt;"
  else String.singleton c

/-- Modelled from the spec: the defensive XML escaping of the embedded
values that section 4.2 requires of the request builder; the source's
builder performs no such escaping, so this definition exists only to be
compared with `buildPayload`. -/
def buildPayloadEscaped (countryCode vatNumber : String) : String :=
  payloadPre ++ String.join (countryCode.data.map escapeChar) ++ payloadMid
    ++ String.join (vatNumber.data.map escapeChar) ++ payloadSuf

/-- A parsed XML element as `XmlService` exposes it to this code:
a (possibly prefixed) tag name, child elements, and text content. -/
inductive XmlElem where
  | node (tagName : String) (childElems : List XmlElem) (textContent : String)

/-- The tag name as written, prefix included. -/
def XmlElem.rawName : XmlElem → String
  | .node n _ _ => n

/-- `getChildren()`. -/
def XmlElem.children : XmlElem → List XmlElem
  | .node _ cs _ => cs

/-- `getText()`. -/
def XmlElem.getText : XmlElem → String
  | .node _ _ t => t

/-- The local part of a possibly namespace-prefixed tag name: the segment
after the last colon. -/
def localPart (s : String) : String :=
  String.mk (s.data.foldl (fun acc c => if c == ':' then [] else acc ++ [c]) [])

/-- `getName()`: the element name without its namespace prefix, as the
`XmlService` element API reports it. -/
def XmlElem.getName (e : XmlElem) : String := localPart e.rawName

/-- Outcome of the single `UrlFetchApp.fetch` call: either the thrown
fetch error's message, or a response with status code and body text. -/
inductive FetchOutcome where
  | networkError (message : String)
  | response (code : Nat) (body : String)
deriving DecidableEq

/-- Outcome of the single `XmlService.parse(xml)` call: a thrown parse
error's message, or a document with its (possibly absent) root element. -/
inductive ParseOutcome where
  | failure (message : String)
  | doc (root : Option XmlElem)

/-- One five-field result row `[requestDate, valid, name, address, error]`.
`valid` is a `JsValue` because the source initializes it to the boolean
`false` and, when a `valid` element is present, overwrites it with the
element's text (a string). -/
structure VatRow where
  requestDate : String
  valid : JsValue
  name : String
  address : String
  error : String
deriving DecidableEq, Repr

/-- The result of one invocation: the returned rows, plus whether the
`Utilities.sleep(1000)` rate-limiting pause was executed on the way. -/
structure CallResult where
  rows : List VatRow
  slept : Bool
deriving DecidableEq, Repr

/-- The error-shaped row `['', false, '', '', e]`. -/
def errorRow (e : String) : VatRow :=
  ⟨"", .boolv false, "", "", e⟩

/-- An early `return [['', false, '', '', e]]`, which skips the sleep. -/
def earlyExit (e : String) : CallResult :=
  ⟨[errorRow e], false⟩

/-- The final `Utilities.sleep(1000); result.push([...]); return result`. -/
def done (r : VatRow) : CallResult :=
  ⟨[r], true⟩

/-- The body-locating loop over the root's direct children: first child
whose lowercased local name is `body`. -/
def findBody : List XmlElem → Option XmlElem
  | [] => none
  | c :: rest => if lowerStr c.getName == "body" then some c else findBody rest

/-- The fault-scanning loop: first child whose lowercased local name is
`faultstring` (the source breaks at the first match). -/
def findFaultstring : List XmlElem → Option XmlElem
  | [] => none
  | c :: rest =>
      if lowerStr c.getName == "faultstring" then some c else findFaultstring rest

/-- The error text produced by the SOAP-Fault branch: the first
faultstring child's text, with the literal fallback applied by
`if (!error) error = 'SOAP Fault received'` whenever that text is falsy. -/
def faultError (f : XmlElem) : String :=
  let e := match findFaultstring f.children with
    | some fs => fs.getText
    | none => ""
  if e == "" then "SOAP Fault received" else e

/-- Accumulator of the success-branch extraction loop. -/
structure Fields where
  requestDate : String := ""
  valid : JsValue := .boolv false
  name : String := ""
  address : String := ""
deriving DecidableEq, Repr

/-- The success-branch loop: scan all children, matching `getName()`
case-sensitively against the four tags; later occurrences overwrite
earlier ones, and `valid` receives the raw text. -/
def extractFields (cs : List XmlElem) : Fields :=
  cs.foldl (fun acc c =>
    let tag := c.getName
    let value := c.getText
    let acc1 := if tag == "requestDate" then { acc with requestDate := value } else acc
    let acc2 := if tag == "valid" then { acc1 with valid := .strv value } else acc1
    let acc3 := if tag == "name" then { acc2 with name := value } else acc2
    if tag == "address" then { acc3 with address := value } else acc3)
    {}

/-- The branch on the first child of the body: SOAP Fault versus success
payload; both fall through to the sleep. -/
def handleFirstChild (first : XmlElem) : CallResult :=
  if lowerStr first.getName == "fault" then
    done (errorRow (faultError first))
  else
    let f := extractFields first.children
    done ⟨f.requestDate, f.valid, f.name, f.address, ""⟩

/-- Processing of a parsed root element: locate the body, require it
non-empty, then branch on its first child. -/
def handleRoot (root : XmlElem) : CallResult :=
  match findBody root.children with
  | none => earlyExit "Invalid XML response: no body element found"
  | some body =>
      match body.children with
      | [] => earlyExit "Invalid XML response: empty body element"
      | first :: _ => handleFirstChild first

/-- Processing of the `XmlService.parse` outcome. -/
def handleParse : ParseOutcome → CallResult
  | .failure msg => earlyExit ("XML parsing error: " ++ msg)
  | .doc none => earlyExit "Invalid XML response: no root element"
  | .doc (some root) => handleRoot root

/-- Processing of an HTTP response: status check, empty-body check,
then the parse stage. -/
def handleResponse (code : Nat) (xml : String) (parsed : ParseOutcome) : CallResult :=
  if code ≠ 200 then
    earlyExit ("HTTP error " ++ toString code ++ ": Service unavailable")
  else if xml = "" then
    earlyExit "Empty response from service"
  else handleParse parsed

/-- The whole function `CHECK_VAT_SERVICE(vat_number)`, with the fetch and
parse outcomes supplied environmentally. -/
def CHECK_VAT_SERVICE (vat_number : JsValue) (fetch : FetchOutcome)
    (parsed : ParseOutcome) : CallResult :=
  if falsy vat_number || !(isString vat_number) then
    earlyExit "Invalid input: VAT number is required"
  else
    let v := normalizeVat (stringOf vat_number)
    if v.length < 3 then
      earlyExit "Invalid VAT number: too short"
    else
      match fetch with
      | .networkError msg => earlyExit ("Network error: " ++ msg)
      | .response code xml => handleResponse code xml parsed

/-- A synthetic success response document: an envelope whose body's first
child is a `checkVatResponse` element with the four data children. -/
def successDoc (D V N A : String) : XmlElem :=
  .node "soap:Envelope"
    [ .node "soap:Body"
        [ .node "checkVatResponse"
            [ .node "requestDate" [] D
            , .node "valid" [] V
            , .node "name" [] N
            , .node "address" [] A ] "" ] "" ] ""

/-- A synthetic SOAP Fault response document with the given fault children. -/
def faultDoc (cs : List XmlElem) : XmlElem :=
  .node "soap:Envelope" [ .node "soap:Body" [ .node "soap:Fault" cs "" ] "" ] ""

/-- The result-shape invariant: a single row, either success-shaped
(empty error) or error-shaped (non-empty error, all other fields at
their defaults). -/
def Shaped (res : CallResult) : Prop :=
  ∃ r, res.rows = [r] ∧
    (r.error = "" ∨
      (r.error ≠ "" ∧ r.requestDate = "" ∧ r.valid = .boolv false ∧
        r.name = "" ∧ r.address = ""))

/-- The invocation reaches the field-extraction stage: input is a
non-empty string that normalizes to length at least 3, the fetch yields a
200 response with a non-empty body, the body parses to a document with a
root, a body element is located among the root's children, and that body
element has a first child. -/
def reachesExtraction (input : JsValue) (fetch : FetchOutcome)
    (parsed : ParseOutcome) : Prop :=
  ∃ s code xml root body first rest,
    input = .strv s ∧ s ≠ "" ∧ 3 ≤ (normalizeVat s).length ∧
    fetch = .response code xml ∧ code = 200 ∧ xml ≠ "" ∧
    parsed = .doc (some root) ∧ findBody root.children = some body ∧
    body.children = first :: rest

lemma string_append_ne_empty (p q : String) (hp : p ≠ "") : p ++ q ≠ "" := by
  cases p with
  | mk a =>
    cases q with
    | mk b =>
      intro h
      apply hp
      have hdata : a ++ b = [] := congrArg String.data h
      have ha : a = [] := (List.append_eq_nil.mp hdata).1
      simp [ha]

lemma eval_nonstring (input : JsValue) (fetch : FetchOutcome)
    (parsed : ParseOutcome) (h : isString input = false) :
    CHECK_VAT_SERVICE input fetch parsed
      = earlyExit "Invalid input: VAT number is required" := by
  unfold CHECK_VAT_SERVICE
  rw [h]
  simp

lemma eval_empty_input (fetch : FetchOutcome) (parsed : ParseOutcome) :
    CHECK_VAT_SERVICE (.strv "") fetch parsed
      = earlyExit "Invalid input: VAT number is required" := rfl

lemma input_cond_false (s : String) (hne : s ≠ "") :
    (falsy (.strv s) || !(isString (.strv s))) = false := by
  simp [falsy, isString, hne]

lemma eval_too_short (s : String) (fetch : FetchOutcome) (parsed : ParseOutcome)
    (hne : s ≠ "") (hlen : (normalizeVat s).length < 3) :
    CHECK_VAT_SERVICE (.strv s) fetch parsed
      = earlyExit "Invalid VAT number: too short" := by
  unfold CHECK_VAT_SERVICE
  rw [input_cond_false s hne]
  simp [stringOf, hlen]

lemma normalizeVat_empty : normalizeVat "" = "" := rfl

lemma ne_empty_of_len (s : String) (hlen : 3 ≤ (normalizeVat s).length) :
    s ≠ "" := by
  intro h
  rw [h, normalizeVat_empty] at hlen
  exact absurd hlen (by decide)

lemma eval_network (s msg : String) (parsed : ParseOutcome)
    (hlen : 3 ≤ (normalizeVat s).length) :
    CHECK_VAT_SERVICE (.strv s) (.networkError msg) parsed
      = earlyExit ("Network error: " ++ msg) := by
  unfold CHECK_VAT_SERVICE
  rw [input_cond_false s (ne_empty_of_len s hlen)]
  simp [stringOf]
  omega

lemma eval_response (s xml : String) (code : Nat) (parsed : ParseOutcome)
    (hlen : 3 ≤ (normalizeVat s).length) :
    CHECK_VAT_SERVICE (.strv s) (.response code xml) parsed
      = handleResponse code xml parsed := by
  unfold CHECK_VAT_SERVICE
  rw [input_cond_false s (ne_empty_of_len s hlen)]
  simp [stringOf]
  omega

lemma handleResponse_ne200 (code : Nat) (xml : String) (parsed : ParseOutcome)
    (hcode : code ≠ 200) :
    handleResponse code xml parsed
      = earlyExit ("HTTP error " ++ toString code ++ ": Service unavailable") := by
  unfold handleResponse
  rw [if_pos hcode]

lemma handleResponse_200 (xml : String) (parsed : ParseOutcome) (hxml : xml ≠ "") :
    handleResponse 200 xml parsed = handleParse parsed := by
  unfold handleResponse
  rw [if_neg (fun h => h rfl), if_neg hxml]

lemma handleRoot_first (root body first : XmlElem) (rest : List XmlElem)
    (hb : findBody root.children = some body)
    (hc : body.children = first :: rest) :
    handleRoot root = handleFirstChild first := by
  cases body with
  | node n cs t =>
    simp only [XmlElem.children] at hc
    subst hc
    unfold handleRoot
    rw [hb]
    rfl

lemma handleFirstChild_slept (f : XmlElem) : (handleFirstChild f).slept = true := by
  unfold handleFirstChild
  split
  · rfl
  · rfl

lemma handleFirstChild_fault (f : XmlElem) (hf : lowerStr f.getName = "fault") :
    handleFirstChild f = done (errorRow (faultError f)) := by
  unfold handleFirstChild
  rw [hf]
  rfl

lemma faultError_some (f fs : XmlElem) (hfs : findFaultstring f.children = some fs) :
    faultError f = if fs.getText == "" then "SOAP Fault received" else fs.getText := by
  unfold faultError
  rw [hfs]

lemma faultError_none (f : XmlElem) (hfs : findFaultstring f.children = none) :
    faultError f = "SOAP Fault received" := by
  unfold faultError
  rw [hfs]
  rfl

lemma faultError_ne_empty (f : XmlElem) : faultError f ≠ "" := by
  unfold faultError
  cases hfs : findFaultstring f.children with
  | none => decide
  | some fs =>
    by_cases h : fs.getText = ""
    · simp [h]
    · simp [h]

lemma shaped_earlyExit (e : String) (he : e ≠ "") : Shaped (earlyExit e) :=
  ⟨errorRow e, rfl, Or.inr ⟨he, rfl, rfl, rfl, rfl⟩⟩

lemma shaped_handleFirstChild (f : XmlElem) : Shaped (handleFirstChild f) := by
  unfold handleFirstChild
  split
  · exact ⟨errorRow (faultError f), rfl,
      Or.inr ⟨faultError_ne_empty f, rfl, rfl, rfl, rfl⟩⟩
  · exact ⟨_, rfl, Or.inl rfl⟩

lemma shaped_handleRoot (root : XmlElem) : Shaped (handleRoot root) := by
  unfold handleRoot
  cases hb : findBody root.children with
  | none => exact shaped_earlyExit _ (by decide)
  | some body =>
    cases body with
    | node n cs t =>
      cases cs with
      | nil => exact shaped_earlyExit _ (by decide)
      | cons first rest => exact shaped_handleFirstChild first

lemma shaped_handleParse (parsed : ParseOutcome) : Shaped (handleParse parsed) := by
  match parsed with
  | .failure msg =>
      exact shaped_earlyExit _ (string_append_ne_empty _ _ (by decide))
  | .doc none => exact shaped_earlyExit _ (by decide)
  | .doc (some root) => exact shaped_handleRoot root

lemma shaped_handleResponse (code : Nat) (xml : String) (parsed : ParseOutcome) :
    Shaped (handleResponse code xml parsed) := by
  unfold handleResponse
  split
  · exact shaped_earlyExit _
      (string_append_ne_empty _ _ (string_append_ne_empty _ _ (by decide)))
  · split
    · exact shaped_earlyExit _ (by decide)
    · exact shaped_handleParse parsed

lemma handleParse_doc (root : XmlElem) :
    handleParse (.doc (some root)) = handleRoot root := rfl

lemma handleResponse_empty (parsed : ParseOutcome) :
    handleResponse 200 "" parsed = earlyExit "Empty response from service" := by
  unfold handleResponse
  rw [if_neg (fun h => h rfl), if_pos rfl]

lemma handleFirstChild_success (f : XmlElem) (hf : lowerStr f.getName ≠ "fault") :
    handleFirstChild f
      = done ⟨(extractFields f.children).requestDate, (extractFields f.children).valid,
          (extractFields f.children).name, (extractFields f.children).address, ""⟩ := by
  unfold handleFirstChild
  simp [hf]

lemma findBody_mem (cs : List XmlElem) (e : XmlElem) (hmem : e ∈ cs)
    (hname : lowerStr e.getName = "body") :
    ∃ b, findBody cs = some b ∧ lowerStr b.getName = "body" := by
  induction cs with
  | nil => cases hmem
  | cons c rest ih =>
    by_cases hc : lowerStr c.getName = "body"
    · exact ⟨c, by simp [findBody, hc], hc⟩
    · have hmem2 : e ∈ rest := by
        cases hmem with
        | head => exact absurd hname hc
        | tail _ h => exact h
      obtain ⟨b, hb, hbn⟩ := ih hmem2
      exact ⟨b, by simp [findBody, hc, hb], hbn⟩

set_option maxRecDepth 8000

/-- C1: every invocation of `CHECK_VAT_SERVICE` returns a single
five-field row, and exactly one of the two shapes is populated: either
the success shape (`error` the empty string) or the error shape (`error`
a non-empty string and `requestDate`, `valid`, `name`, `address` at their
defaults `""`, `false`, `""`, `""`); never a hybrid. -/
theorem check_vat_single_row_shape (input : JsValue) (fetch : FetchOutcome)
    (parsed : ParseOutcome) :
    ∃ r, (CHECK_VAT_SERVICE input fetch parsed).rows = [r] ∧
      (r.error = "" ∨
        (r.error ≠ "" ∧ r.requestDate = "" ∧ r.valid = .boolv false ∧
          r.name = "" ∧ r.address = "")) := by
  suffices h : Shaped (CHECK_VAT_SERVICE input fetch parsed) by exact h
  cases input with
  | undef =>
    rw [eval_nonstring .undef fetch parsed rfl]
    exact shaped_earlyExit _ (by decide)
  | nullv =>
    rw [eval_nonstring .nullv fetch parsed rfl]
    exact shaped_earlyExit _ (by decide)
  | boolv b =>
    rw [eval_nonstring (.boolv b) fetch parsed rfl]
    exact shaped_earlyExit _ (by decide)
  | numv n =>
    rw [eval_nonstring (.numv n) fetch parsed rfl]
    exact shaped_earlyExit _ (by decide)
  | strv s =>
    by_cases hs : s = ""
    · subst hs
      rw [eval_empty_input]
      exact shaped_earlyExit _ (by decide)
    · by_cases hlen : (normalizeVat s).length < 3
      · rw [eval_too_short s fetch parsed hs hlen]
        exact shaped_earlyExit _ (by decide)
      · cases fetch with
        | networkError msg =>
          rw [eval_network s msg parsed (by omega)]
          exact shaped_earlyExit _ (string_append_ne_empty _ _ (by decide))
        | response code xml =>
          rw [eval_response s xml code parsed (by omega)]
          exact shaped_handleResponse code xml parsed

/-- C2 counterexample: on a synthetic success response with
`valid` text `"true"`, the produced row does not carry the boolean
`true` in its second field (it carries the raw string `"true"`). -/
theorem check_vat_valid_boolean_counterexample :
    (CHECK_VAT_SERVICE (.strv "NL123456789B01") (.response 200 "<r/>")
        (.doc (some (successDoc "2015-03-09+01:00" "true" "ACME CORP" "MAIN ST 1")))).rows
      ≠ [⟨"2015-03-09+01:00", .boolv true, "ACME CORP", "MAIN ST 1", ""⟩] := by
  decide

/-- C2 (amended): for every success response whose body's first child is
a non-fault element with children `requestDate` = D, `valid` = "true",
`name` = N, `address` = A, the parser stage produces exactly the row
`[D, "true", N, A, ""]`, where the second field is the raw text string
`"true"` carried through unchanged, not a coerced boolean. -/
theorem check_vat_success_valid_text (s xml respName t D N A : String)
    (root body : XmlElem) (rest : List XmlElem)
    (hlen : 3 ≤ (normalizeVat s).length) (hxml : xml ≠ "")
    (hb : findBody root.children = some body)
    (hc : body.children = XmlElem.node respName
        [ .node "requestDate" [] D, .node "valid" [] "true"
        , .node "name" [] N, .node "address" [] A ] t :: rest)
    (hresp : lowerStr (localPart respName) ≠ "fault") :
    CHECK_VAT_SERVICE (.strv s) (.response 200 xml) (.doc (some root))
      = done ⟨D, .strv "true", N, A, ""⟩ := by
  rw [eval_response s xml 200 _ hlen, handleResponse_200 xml _ hxml,
    handleParse_doc root,
    handleRoot_first root body _ rest hb hc,
    handleFirstChild_success (XmlElem.node respName
      [ .node "requestDate" [] D, .node "valid" [] "true"
      , .node "name" [] N, .node "address" [] A ] t) hresp]
  rfl

/-- C2 amended witness: a concrete synthetic success response. -/
theorem check_vat_success_valid_text_witness :
    CHECK_VAT_SERVICE (.strv "NL123456789B01") (.response 200 "<r/>")
        (.doc (some (successDoc "2015-03-09+01:00" "true" "ACME CORP" "MAIN ST 1")))
      = done ⟨"2015-03-09+01:00", .strv "true", "ACME CORP", "MAIN ST 1", ""⟩ :=
  check_vat_success_valid_text "NL123456789B01" "<r/>" "checkVatResponse" ""
    "2015-03-09+01:00" "ACME CORP" "MAIN ST 1"
    (successDoc "2015-03-09+01:00" "true" "ACME CORP" "MAIN ST 1")
    (.node "soap:Body"
      [ .node "checkVatResponse"
          [ .node "requestDate" [] "2015-03-09+01:00", .node "valid" [] "true"
          , .node "name" [] "ACME CORP", .node "address" [] "MAIN ST 1" ] "" ] "")
    [] (by decide) (by decide) rfl rfl (by decide)

/-- C3 counterexample: the empty string normalizes to length 0 < 3, yet
the function returns the `Invalid input: VAT number is required` row, not
the `Invalid VAT number: too short` row, because JavaScript treats `""`
as falsy in the initial `!vat_number` check. -/
theorem check_vat_empty_input_counterexample :
    (normalizeVat "").length < 3 ∧
    (CHECK_VAT_SERVICE (.strv "") (.networkError "x") (.failure "y")).rows
      = [errorRow "Invalid input: VAT number is required"] ∧
    errorRow "Invalid input: VAT number is required"
      ≠ errorRow "Invalid VAT number: too short" := by
  decide

/-- C3 (amended): for every non-empty string input whose normalized form
has length < 3 — including whitespace-only and single-character strings —
the result is exactly `["", false, "", "", "Invalid VAT number: too
short"]`; the empty string instead hits the falsy input check. -/
theorem check_vat_too_short (s : String) (fetch : FetchOutcome)
    (parsed : ParseOutcome) (hne : s ≠ "")
    (hlen : (normalizeVat s).length < 3) :
    CHECK_VAT_SERVICE (.strv s) fetch parsed
      = earlyExit "Invalid VAT number: too short" :=
  eval_too_short s fetch parsed hne hlen

/-- C3 amended witness: a whitespace-and-punctuation input normalizing to
one character. -/
theorem check_vat_too_short_witness :
    CHECK_VAT_SERVICE (.strv " x. ") (.networkError "x") (.failure "y")
      = earlyExit "Invalid VAT number: too short" :=
  check_vat_too_short " x. " (.networkError "x") (.failure "y")
    (by decide) (by decide)

/-- C4: for every HTTP response with status code not 200, the function
returns the error row `HTTP error <code>: Service unavailable`,
regardless of the body content, without raising, and without sleeping. -/
theorem check_vat_http_error (s xml : String) (code : Nat)
    (parsed : ParseOutcome) (hlen : 3 ≤ (normalizeVat s).length)
    (hcode : code ≠ 200) :
    CHECK_VAT_SERVICE (.strv s) (.response code xml) parsed
      = earlyExit ("HTTP error " ++ toString code ++ ": Service unavailable") := by
  rw [eval_response s xml code parsed hlen,
    handleResponse_ne200 code xml parsed hcode]

/-- C4 witness: status 500 with a non-empty body. -/
theorem check_vat_http_error_witness :
    CHECK_VAT_SERVICE (.strv "NL123456789B01")
        (.response 500 "<html>maintenance</html>") (.failure "x")
      = earlyExit "HTTP error 500: Service unavailable" :=
  check_vat_http_error "NL123456789B01" "<html>maintenance</html>" 500
    (.failure "x") (by decide) (by decide)

/-- C5: for every 200 response whose body's first child is a SOAP Fault
element whose faultstring child has text `INVALID_INPUT`, the parser
stage yields exactly the row `["", false, "", "", "INVALID_INPUT"]`. -/
theorem check_vat_fault_faultstring (s xml : String)
    (root body first fs : XmlElem) (rest : List XmlElem)
    (hlen : 3 ≤ (normalizeVat s).length) (hxml : xml ≠ "")
    (hb : findBody root.children = some body)
    (hc : body.children = first :: rest)
    (hfault : lowerStr first.getName = "fault")
    (hfs : findFaultstring first.children = some fs)
    (htext : fs.getText = "INVALID_INPUT") :
    CHECK_VAT_SERVICE (.strv s) (.response 200 xml) (.doc (some root))
      = done (errorRow "INVALID_INPUT") := by
  rw [eval_response s xml 200 _ hlen, handleResponse_200 xml _ hxml,
    handleParse_doc root, handleRoot_first root body first rest hb hc,
    handleFirstChild_fault first hfault, faultError_some first fs hfs, htext]
  rfl

/-- C5 witness: a concrete fault document with faultstring
`INVALID_INPUT`. -/
theorem check_vat_fault_faultstring_witness :
    CHECK_VAT_SERVICE (.strv "XX000") (.response 200 "<f/>")
        (.doc (some (faultDoc [ .node "faultcode" [] "soap:Server"
                              , .node "faultstring" [] "INVALID_INPUT" ])))
      = done (errorRow "INVALID_INPUT") :=
  check_vat_fault_faultstring "XX000" "<f/>"
    (faultDoc [ .node "faultcode" [] "soap:Server"
              , .node "faultstring" [] "INVALID_INPUT" ])
    (.node "soap:Body"
      [ .node "soap:Fault" [ .node "faultcode" [] "soap:Server"
                           , .node "faultstring" [] "INVALID_INPUT" ] "" ] "")
    (.node "soap:Fault" [ .node "faultcode" [] "soap:Server"
                        , .node "faultstring" [] "INVALID_INPUT" ] "")
    (.node "faultstring" [] "INVALID_INPUT") []
    (by decide) (by decide) rfl rfl rfl rfl rfl

/-- C6: for every 200 response whose body's first child is a SOAP Fault
element with no faultstring child, the parser stage yields the error row
with the literal text `SOAP Fault received`. -/
theorem check_vat_fault_missing_faultstring (s xml : String)
    (root body first : XmlElem) (rest : List XmlElem)
    (hlen : 3 ≤ (normalizeVat s).length) (hxml : xml ≠ "")
    (hb : findBody root.children = some body)
    (hc : body.children = first :: rest)
    (hfault : lowerStr first.getName = "fault")
    (hfs : findFaultstring first.children = none) :
    CHECK_VAT_SERVICE (.strv s) (.response 200 xml) (.doc (some root))
      = done (errorRow "SOAP Fault received") := by
  rw [eval_response s xml 200 _ hlen, handleResponse_200 xml _ hxml,
    handleParse_doc root, handleRoot_first root body first rest hb hc,
    handleFirstChild_fault first hfault, faultError_none first hfs]

/-- C6 witness: a concrete fault document with only a faultcode child. -/
theorem check_vat_fault_missing_faultstring_witness :
    CHECK_VAT_SERVICE (.strv "XX000") (.response 200 "<f/>")
        (.doc (some (faultDoc [ .node "faultcode" [] "soap:Server" ])))
      = done (errorRow "SOAP Fault received") :=
  check_vat_fault_missing_faultstring "XX000" "<f/>"
    (faultDoc [ .node "faultcode" [] "soap:Server" ])
    (.node "soap:Body"
      [ .node "soap:Fault" [ .node "faultcode" [] "soap:Server" ] "" ] "")
    (.node "soap:Fault" [ .node "faultcode" [] "soap:Server" ] "") []
    (by decide) (by decide) rfl rfl rfl rfl

/-- C10: for every 200 response whose body's first child is a SOAP Fault
element that does contain a faultstring child whose text is the empty
string, the result error is `SOAP Fault received`: the fallback fires
whenever the extracted error text is falsy, not only when the child is
absent. -/
theorem check_vat_fault_empty_faultstring (s xml : String)
    (root body first fs : XmlElem) (rest : List XmlElem)
    (hlen : 3 ≤ (normalizeVat s).length) (hxml : xml ≠ "")
    (hb : findBody root.children = some body)
    (hc : body.children = first :: rest)
    (hfault : lowerStr first.getName = "fault")
    (hfs : findFaultstring first.children = some fs)
    (htext : fs.getText = "") :
    CHECK_VAT_SERVICE (.strv s) (.response 200 xml) (.doc (some root))
      = done (errorRow "SOAP Fault received") := by
  rw [eval_response s xml 200 _ hlen, handleResponse_200 xml _ hxml,
    handleParse_doc root, handleRoot_first root body first rest hb hc,
    handleFirstChild_fault first hfault, faultError_some first fs hfs, htext]
  rfl

/-- C10 witness: a concrete fault document with an empty faultstring. -/
theorem check_vat_fault_empty_faultstring_witness :
    CHECK_VAT_SERVICE (.strv "XX000") (.response 200 "<f/>")
        (.doc (some (faultDoc [ .node "faultstring" [] "" ])))
      = done (errorRow "SOAP Fault received") :=
  check_vat_fault_empty_faultstring "XX000" "<f/>"
    (faultDoc [ .node "faultstring" [] "" ])
    (.node "soap:Body" [ .node "soap:Fault" [ .node "faultstring" [] "" ] "" ] "")
    (.node "soap:Fault" [ .node "faultstring" [] "" ] "")
    (.node "faultstring" [] "") []
    (by decide) (by decide) rfl rfl rfl rfl rfl

/-- C7: whenever some direct child of the root has local name `body`
case-insensitively — whatever its namespace prefix — the body-locating
loop finds a body element, and the function does not produce the
`Invalid XML response: no body element found` error. -/
theorem check_vat_body_located (s xml : String) (root e : XmlElem)
    (hlen : 3 ≤ (normalizeVat s).length) (hxml : xml ≠ "")
    (hmem : e ∈ root.children) (hname : lowerStr e.getName = "body") :
    (∃ b, findBody root.children = some b ∧ lowerStr b.getName = "body") ∧
    CHECK_VAT_SERVICE (.strv s) (.response 200 xml) (.doc (some root))
      ≠ earlyExit "Invalid XML response: no body element found" := by
  obtain ⟨b, hb, hbn⟩ := findBody_mem root.children e hmem hname
  refine ⟨⟨b, hb, hbn⟩, ?_⟩
  rw [eval_response s xml 200 _ hlen, handleResponse_200 xml _ hxml,
    handleParse_doc root]
  cases b with
  | node n cs t =>
    unfold handleRoot
    rw [hb]
    cases cs with
    | nil =>
      show earlyExit "Invalid XML response: empty body element"
        ≠ earlyExit "Invalid XML response: no body element found"
      decide
    | cons first rest =>
      show handleFirstChild first
        ≠ earlyExit "Invalid XML response: no body element found"
      intro hcontra
      have hslept := congrArg CallResult.slept hcontra
      rw [handleFirstChild_slept first] at hslept
      exact Bool.noConfusion hslept

/-- C7 witness: a root whose body child carries the `SOAP-ENV:` prefix. -/
theorem check_vat_body_located_witness :
    (∃ b, findBody (XmlElem.node "SOAP-ENV:Envelope"
        [ .node "SOAP-ENV:Body" [ .node "checkVatResponse" [] "" ] "" ] "").children
          = some b ∧ lowerStr b.getName = "body") ∧
    CHECK_VAT_SERVICE (.strv "NL123456789B01") (.response 200 "<e/>")
        (.doc (some (XmlElem.node "SOAP-ENV:Envelope"
          [ .node "SOAP-ENV:Body" [ .node "checkVatResponse" [] "" ] "" ] "")))
      ≠ earlyExit "Invalid XML response: no body element found" :=
  check_vat_body_located "NL123456789B01" "<e/>"
    (XmlElem.node "SOAP-ENV:Envelope"
      [ .node "SOAP-ENV:Body" [ .node "checkVatResponse" [] "" ] "" ] "")
    (.node "SOAP-ENV:Body" [ .node "checkVatResponse" [] "" ] "")
    (by decide) (by decide) (List.mem_singleton.mpr rfl) rfl

/-- C8 counterexample: the request builder does not XML-escape the
embedded values — on a countryCode containing `<`, its output differs
from the envelope with the values XML-escaped. -/
theorem check_vat_payload_not_escaped_counterexample :
    buildPayload "<" "1" ≠ buildPayloadEscaped "<" "1" := by
  decide

/-- C8 (amended): the builder embeds `countryCode` and `vatNumber`
verbatim, with no escaping; well-formedness of the envelope rests on the
upstream normalization, whose output contains only `[A-Z0-9]` characters
and hence never an XML-significant `&`, `<` or `>`. -/
theorem check_vat_payload_verbatim (c v s : String) (ch : Char)
    (hch : ch ∈ (normalizeVat s).data) :
    buildPayload c v = payloadPre ++ c ++ payloadMid ++ v ++ payloadSuf ∧
    (isVatChar ch = true ∧ ch ≠ '&' ∧ ch ≠ '<' ∧ ch ≠ '>') := by
  have hp : isVatChar ch = true := (List.mem_filter.mp hch).2
  refine ⟨rfl, hp, ?_, ?_, ?_⟩ <;>
    (intro h; rw [h] at hp; exact absurd hp (by decide))

/-- C8 amended witness: a concrete normalized character. -/
theorem check_vat_payload_verbatim_witness :
    buildPayload "NL" "123B01"
      = payloadPre ++ "NL" ++ payloadMid ++ "123B01" ++ payloadSuf ∧
    (isVatChar 'N' = true ∧ 'N' ≠ '&' ∧ 'N' ≠ '<' ∧ 'N' ≠ '>') :=
  check_vat_payload_verbatim "NL" "123B01" "nl 1<23" 'N' (by decide)

/-- C9: the 1000 ms `Utilities.sleep` pause executes if and only if the
invocation reaches the field-extraction stage (success payload or parsed
SOAP Fault); every early-exit error path — input validation, network
failure, non-200 status, empty body, and XML structural errors — skips
it. -/
theorem check_vat_sleep_iff_extraction (input : JsValue)
    (fetch : FetchOutcome) (parsed : ParseOutcome) :
    (CHECK_VAT_SERVICE input fetch parsed).slept = true
      ↔ reachesExtraction input fetch parsed := by
  constructor
  · intro h
    cases input with
    | undef =>
      rw [eval_nonstring .undef fetch parsed rfl] at h
      exact Bool.noConfusion h
    | nullv =>
      rw [eval_nonstring .nullv fetch parsed rfl] at h
      exact Bool.noConfusion h
    | boolv b =>
      rw [eval_nonstring (.boolv b) fetch parsed rfl] at h
      exact Bool.noConfusion h
    | numv n =>
      rw [eval_nonstring (.numv n) fetch parsed rfl] at h
      exact Bool.noConfusion h
    | strv s =>
      by_cases hs : s = ""
      · subst hs
        rw [eval_empty_input] at h
        exact Bool.noConfusion h
      · by_cases hlen : (normalizeVat s).length < 3
        · rw [eval_too_short s fetch parsed hs hlen] at h
          exact Bool.noConfusion h
        · cases fetch with
          | networkError msg =>
            rw [eval_network s msg parsed (by omega)] at h
            exact Bool.noConfusion h
          | response code xml =>
            rw [eval_response s xml code parsed (by omega)] at h
            by_cases hcode : code = 200
            · subst hcode
              by_cases hxml : xml = ""
              · subst hxml
                rw [handleResponse_empty parsed] at h
                exact Bool.noConfusion h
              · rw [handleResponse_200 xml parsed hxml] at h
                cases parsed with
                | failure msg => exact Bool.noConfusion h
                | doc o =>
                  cases o with
                  | none => exact Bool.noConfusion h
                  | some root =>
                    rw [handleParse_doc root] at h
                    unfold handleRoot at h
                    cases hb : findBody root.children with
                    | none =>
                      rw [hb] at h
                      exact Bool.noConfusion h
                    | some body =>
                      rw [hb] at h
                      cases body with
                      | node n cs t =>
                        cases cs with
                        | nil => exact Bool.noConfusion h
                        | cons first rest =>
                          exact ⟨s, 200, xml, root, .node n (first :: rest) t,
                            first, rest, rfl, hs, by omega, rfl, rfl, hxml,
                            rfl, hb, rfl⟩
            · rw [handleResponse_ne200 code xml parsed hcode] at h
              exact Bool.noConfusion h
  · rintro ⟨s, code, xml, root, body, first, rest, rfl, hs, hlen, rfl, rfl,
      hxml, rfl, hb, hcb⟩
    rw [eval_response s xml 200 (.doc (some root)) hlen,
      handleResponse_200 xml (.doc (some root)) hxml, handleParse_doc root,
      handleRoot_first root body first rest hb hcb]
    exact handleFirstChild_slept first
